import Mathlib

/-
  Verification of the Interview Preparation Assistant (src/app.py).

  The program is sequential glue: a module-level credential gate, a search
  fetcher (`search_company_info`, lines 26-53), a guide generator
  (`generate_interview_guide`, lines 56-141), and the submitted-form
  orchestration (lines 157-187).  The embedding models each external call's
  outcome as an explicit value supplied to the function:
  the search provider's response, and the completion provider's response.
  Python truthiness on strings (`not s` is true exactly when `s` is the empty
  string, or `None` for optional values) is embedded explicitly.
-/

namespace InterviewPrep

/-- One result object of the provider's `organic` list.  Each of the three
fields may be absent from the JSON object, hence `Option`; the source reads
them with `item.get("title", "")` etc. (app.py lines 48-50). -/
structure SearchHit where
  title : Option String
  link : Option String
  snippet : Option String
deriving Repr, DecidableEq

/-- Outcome of the HTTP search call (app.py lines 35-41).  `failure` covers
every exception the `try` block catches: transport errors, a non-2xx status
raised by `raise_for_status`, and a malformed JSON body.  On `success`,
`organic` is the value of the response's `organic` key, or `none` when the
key is missing (the source reads it with `.get("organic", [])`). -/
inductive SearchResponse where
  | failure
  | success (organic : Option (List SearchHit))
deriving Repr, DecidableEq

/-- Python's whitespace set for `str.strip()` (the six ASCII characters of
`string.whitespace`). -/
def pyIsSpace (c : Char) : Bool :=
  c = ' ' || c = '\t' || c = '\n' || c = '\r' || c = '\x0b' || c = '\x0c'

/-- Python's `str.strip()`: drop leading and trailing whitespace. -/
def pyStrip (s : String) : String :=
  ⟨((s.data.dropWhile pyIsSpace).reverse.dropWhile pyIsSpace).reverse⟩

/-- Python's truthiness test `not s` on an optional string: true for `None`
and for the empty string (app.py line 18 applies it to `os.getenv` results). -/
def pyNotStr : Option String → Bool
  | none => true
  | some v => v == ""

/-- The module-level credential gate, app.py lines 15-20: the two keys are
read from the environment (absent variable gives `None`); if either is falsy
the script shows an error and `st.stop()` halts it.  Returns `true` exactly
when execution proceeds past the gate. -/
def credentialGatePasses (groq_api_key serper_api_key : Option String) : Bool :=
  !(pyNotStr groq_api_key || pyNotStr serper_api_key)

/-- The query string built at app.py line 27:
`f"{company_name} {job_role} interview salary reviews company type"`. -/
def searchQuery (company_name job_role : String) : String :=
  company_name ++ " " ++ job_role ++ " interview salary reviews company type"

/-- One bullet line of the digest, app.py line 51:
`f"- [{title}]({link}) — {snippet}"`, with absent fields read as `""`. -/
def formatHit (item : SearchHit) : String :=
  "- [" ++ item.title.getD "" ++ "](" ++ item.link.getD "" ++ ") — "
    ++ item.snippet.getD ""

/-- `search_company_info`, app.py lines 26-53, as a function of the provider
response.  On any caught exception it returns `""` (line 41); on success it
reads `organic` with default `[]` (line 38); an empty result list yields the
sentinel (line 44); otherwise the first six hits are formatted and joined
with newlines (lines 46-53). -/
def search_company_info (company_name job_role : String)
    (resp : SearchResponse) : String :=
  match resp with
  | .failure => ""
  | .success organic =>
      let results := organic.getD []
      if results.isEmpty then "No relevant info found."
      else String.intercalate "\n" ((results.take 6).map formatHit)

/-- `search_company_info` together with the trace of queries it POSTs: the
body builds one query (line 27) and issues exactly one POST with it
(line 36), whatever the response is. -/
def search_company_info_traced (company_name job_role : String)
    (resp : SearchResponse) : List String × String :=
  ([searchQuery company_name job_role],
   search_company_info company_name job_role resp)

/-- Literal prompt text before the first `{job_role}` interpolation
(app.py line 58). -/
def promptSegA : String :=
  "\n    You are an expert interview coach and career mentor helping a candidate prepare for a **"

/-- Literal prompt text between `{job_role}` and `{company_name}` on
app.py line 58. -/
def promptSegB : String := "** role at **"

/-- Literal prompt text between the first `{company_name}` and `{facts}`
(app.py lines 58-61). -/
def promptSegC : String :=
  "**.\n\n    Below are verified facts collected from online research:\n    "

/-- Literal prompt text between `{facts}` and the second `{company_name}`
(app.py lines 61-70). -/
def promptSegD : String :=
  "\n\n    ### Task\n"
  ++ "    Create a **comprehensive interview preparation guide** in **Markdown format** with **clear headings, bullet points, and clickable links**.\n"
  ++ "\n"
  ++ "    ### Content Requirements\n"
  ++ "    Cover the following sections **in detail**:\n"
  ++ "\n"
  ++ "    ## 1. Company Overview\n"
  ++ "    - What "

/-- Literal prompt text between the second `{company_name}` and the second
`{job_role}` (app.py lines 70-75). -/
def promptSegE : String :=
  " does (products, services, domain)\n"
  ++ "    - Business model and target customers\n"
  ++ "    - Company culture, mission, and recent achievements (if available)\n"
  ++ "\n"
  ++ "    ## 2. Salary Expectations (India)\n"
  ++ "    - Average salary range for **"

/-- Literal prompt text between the second and third `{job_role}`
(app.py lines 75-94). -/
def promptSegF : String :=
  "** in India\n"
  ++ "    - Entry-level, mid-level, and senior-level estimates\n"
  ++ "    - Mention sources (e.g., Glassdoor, AmbitionBox, Levels.fyi) with **links**\n"
  ++ "\n"
  ++ "    ## 3. Company Locations\n"
  ++ "    - Headquarters location\n"
  ++ "    - Major offices in India and globally\n"
  ++ "    - Remote / hybrid work availability (if known)\n"
  ++ "\n"
  ++ "    ## 4. Company Reviews & Work Culture\n"
  ++ "    - Summary of employee reviews\n"
  ++ "    - Pros and cons mentioned by employees\n"
  ++ "    - Ratings from websites like:\n"
  ++ "      - Glassdoor\n"
  ++ "      - AmbitionBox\n"
  ++ "      - Indeed  \n"
  ++ "      (Include **direct links**)\n"
  ++ "\n"
  ++ "    ## 5. Frequently Asked Interview Questions (Role-Specific)\n"
  ++ "    - Technical questions related to **"

/-- Literal prompt text after the third `{job_role}` (app.py lines 94-130). -/
def promptSegG : String :=
  "**\n"
  ++ "    - Behavioral questions (HR round)\n"
  ++ "    - Managerial / scenario-based questions\n"
  ++ "    - Coding / system design / case study questions (if applicable)\n"
  ++ "\n"
  ++ "    ## 6. Preparation Resources & Practice Websites\n"
  ++ "    Provide **clickable links** under each category:\n"
  ++ "\n"
  ++ "    ### Technical Preparation\n"
  ++ "    - Official documentation\n"
  ++ "    - Tutorials, blogs, or courses\n"
  ++ "    - GitHub repositories (if relevant)\n"
  ++ "\n"
  ++ "    ### Coding & Practice Platforms\n"
  ++ "    - LeetCode\n"
  ++ "    - HackerRank\n"
  ++ "    - CodeChef\n"
  ++ "    - GeeksforGeeks\n"
  ++ "\n"
  ++ "    ### Interview Experience & Company-Specific Prep\n"
  ++ "    - Glassdoor interview experiences\n"
  ++ "    - AmbitionBox interview questions\n"
  ++ "    - Reddit / Medium posts (if relevant)\n"
  ++ "\n"
  ++ "    ## 7. Final Summary (Easy-to-Understand)\n"
  ++ "    Conclude with **simple bullet points** covering:\n"
  ++ "    - What to focus on before the interview\n"
  ++ "    - How to prepare in the last 7 days\n"
  ++ "    - Key tips to stand out in the interview\n"
  ++ "\n"
  ++ "    ### Style Guidelines\n"
  ++ "    - Use clear Markdown headings (##, ###)\n"
  ++ "    - Keep explanations simple and beginner-friendly\n"
  ++ "    - Ensure all external references are **clickable links**\n"
  ++ "    - Maintain a professional yet motivating tone\n"
  ++ "\n"

/-- The full f-string prompt of app.py lines 57-130, with its five
interpolations (`job_role`, `company_name`, `facts`, `company_name`,
`job_role`, `job_role` in source order). -/
def prompt (company_name job_role facts : String) : String :=
  promptSegA ++ job_role ++ promptSegB ++ company_name ++ promptSegC ++ facts
    ++ promptSegD ++ company_name ++ promptSegE ++ job_role ++ promptSegF
    ++ job_role ++ promptSegG

/-- `generate_interview_guide`, app.py lines 56-141, as a function of the
completion provider's response.  `none` covers every exception the `try`
block catches (transport errors, missing choices, `None` content); on
success the content is returned stripped of leading and trailing whitespace
(line 138). -/
def generate_interview_guide (company_name job_role facts : String)
    (resp : Option String) : String :=
  match resp with
  | none => ""
  | some content => pyStrip content

/-- `generate_interview_guide` together with the trace of prompts it sends:
the body builds the prompt from its three arguments and issues exactly one
completion request with it (app.py lines 132-137). -/
def generate_interview_guide_traced (company_name job_role facts : String)
    (resp : Option String) : List String × String :=
  ([prompt company_name job_role facts],
   generate_interview_guide company_name job_role facts resp)

/-- The observable effects of one submitted request (app.py lines 157-187):
whether the two warnings fired, the search queries POSTed, the digest
rendered as Web Insights, the prompts sent to the completion provider, the
success banner, the guide rendered, and the download artifact
(file name, content). -/
structure Outcome where
  validationWarned : Bool
  noDataWarned : Bool
  searchQueries : List String
  digestShown : Option String
  generatePrompts : List String
  successShown : Bool
  guideShown : Option String
  download : Option (String × String)
deriving Repr, DecidableEq

/-- The `if submitted:` handler, app.py lines 157-187.  Line 158 tests Python
truthiness of the two inputs (`st.text_input` always yields a string, so the
test is equality with `""`); `st.stop()` at lines 160 and 168 aborts the
request, here by returning the `Outcome` accumulated so far. -/
def handleSubmit (company_name job_role : String)
    (searchResp : SearchResponse) (completionResp : Option String) : Outcome :=
  if company_name == "" || job_role == "" then
    { validationWarned := true, noDataWarned := false, searchQueries := [],
      digestShown := none, generatePrompts := [], successShown := false,
      guideShown := none, download := none }
  else
    let searchCall := search_company_info_traced company_name job_role searchResp
    let facts := searchCall.2
    if facts == "" then
      { validationWarned := false, noDataWarned := true,
        searchQueries := searchCall.1, digestShown := none,
        generatePrompts := [], successShown := false,
        guideShown := none, download := none }
    else
      let genCall := generate_interview_guide_traced company_name job_role
        facts completionResp
      let guide := genCall.2
      if guide == "" then
        { validationWarned := false, noDataWarned := false,
          searchQueries := searchCall.1, digestShown := some facts,
          generatePrompts := genCall.1, successShown := false,
          guideShown := none, download := none }
      else
        { validationWarned := false, noDataWarned := false,
          searchQueries := searchCall.1, digestShown := some facts,
          generatePrompts := genCall.1, successShown := true,
          guideShown := some guide,
          download := some
            (company_name ++ "_" ++ job_role ++ "_Interview_Guide.txt", guide) }

/-- `s` contains `m` as a contiguous substring. -/
def ContainsStr (s m : String) : Prop :=
  ∃ p q : String, s = p ++ (m ++ q)

/-- The prompt contains the company name verbatim (first interpolation). -/
theorem prompt_contains_company (c r f : String) : ContainsStr (prompt c r f) c :=
  ⟨promptSegA ++ r ++ promptSegB,
   promptSegC ++ f ++ promptSegD ++ c ++ promptSegE ++ r ++ promptSegF
     ++ r ++ promptSegG,
   by simp [prompt, String.append_assoc]⟩

/-- The prompt contains the job role verbatim (first interpolation). -/
theorem prompt_contains_role (c r f : String) : ContainsStr (prompt c r f) r :=
  ⟨promptSegA,
   promptSegB ++ c ++ promptSegC ++ f ++ promptSegD ++ c ++ promptSegE
     ++ r ++ promptSegF ++ r ++ promptSegG,
   by simp [prompt, String.append_assoc]⟩

/-- The prompt contains the facts digest verbatim. -/
theorem prompt_contains_facts (c r f : String) : ContainsStr (prompt c r f) f :=
  ⟨promptSegA ++ r ++ promptSegB ++ c ++ promptSegC,
   promptSegD ++ c ++ promptSegE ++ r ++ promptSegF ++ r ++ promptSegG,
   by simp [prompt, String.append_assoc]⟩

/-- C1: when the search provider call fails (transport error or non-2xx
status), `search_company_info` returns the empty string, and the submitted
handler aborts before generation: no prompt is ever sent to the completion
provider for that request. -/
theorem C1_search_failure_aborts_before_generation
    (c r : String) (hc : c ≠ "") (hr : r ≠ "") (comp : Option String) :
    search_company_info c r .failure = "" ∧
    (handleSubmit c r .failure comp).generatePrompts = [] := by
  refine ⟨rfl, ?_⟩
  simp [handleSubmit, search_company_info_traced, search_company_info, hc, hr]

/-- C1 witness at a concrete request. -/
theorem C1_witness :
    ("Acme" : String) ≠ "" ∧ ("Engineer" : String) ≠ "" ∧
    (search_company_info "Acme" "Engineer" .failure = "" ∧
     (handleSubmit "Acme" "Engineer" .failure (some "guide")).generatePrompts
       = []) :=
  ⟨by decide, by decide,
   C1_search_failure_aborts_before_generation "Acme" "Engineer"
     (by decide) (by decide) (some "guide")⟩

/-- C2: on a successful response whose `organic` list has N ≥ 1 entries, the
digest is exactly the first `min(N,6)` hits, in provider order, each
formatted `- [title](link) — snippet` with absent fields read as the empty
string, joined by newlines. -/
theorem C2_digest_is_first_six_hits_formatted
    (c r : String) (hits : List SearchHit) (h : hits ≠ []) :
    search_company_info c r (.success (some hits)) =
      String.intercalate "\n" ((hits.take 6).map formatHit) ∧
    ((hits.take 6).map formatHit).length = min hits.length 6 := by
  cases hits with
  | nil => exact absurd rfl h
  | cons a t =>
      refine ⟨rfl, ?_⟩
      simp [List.length_take]
      omega

/-- C2 witness at a concrete one-hit response. -/
theorem C2_witness :
    ([⟨some "T", some "L", some "S"⟩] : List SearchHit) ≠ [] ∧
    (search_company_info "Acme" "Engineer"
        (.success (some [⟨some "T", some "L", some "S"⟩])) =
      String.intercalate "\n"
        ((([⟨some "T", some "L", some "S"⟩] : List SearchHit).take 6).map
          formatHit) ∧
     ((([⟨some "T", some "L", some "S"⟩] : List SearchHit).take 6).map
         formatHit).length =
       min ([⟨some "T", some "L", some "S"⟩] : List SearchHit).length 6) :=
  ⟨by decide,
   C2_digest_is_first_six_hits_formatted "Acme" "Engineer"
     [⟨some "T", some "L", some "S"⟩] (by decide)⟩

/-- C3: on a successful response whose `organic` list is empty or missing,
the digest is the literal sentinel "No relevant info found.", which is
distinct from the empty string returned on failure. -/
theorem C3_zero_results_sentinel (c r : String) (o : Option (List SearchHit))
    (h : o.getD [] = []) :
    search_company_info c r (.success o) = "No relevant info found." ∧
    search_company_info c r (.success o) ≠ "" := by
  have hs : search_company_info c r (.success o) = "No relevant info found." := by
    simp [search_company_info, h]
  refine ⟨hs, ?_⟩
  rw [hs]
  decide

/-- C3 witness: the `organic` key missing entirely. -/
theorem C3_witness :
    ((none : Option (List SearchHit)).getD [] = []) ∧
    (search_company_info "Acme" "Engineer" (.success none)
        = "No relevant info found." ∧
     search_company_info "Acme" "Engineer" (.success none) ≠ "") :=
  ⟨rfl, C3_zero_results_sentinel "Acme" "Engineer" none rfl⟩

/-- C4: for every nonempty input pair, the fetcher issues exactly one search
call, with query `"{company} {role} interview salary reviews company type"`. -/
theorem C4_single_search_call_query (c r : String) (hc : c ≠ "") (hr : r ≠ "")
    (resp : SearchResponse) :
    (search_company_info_traced c r resp).1 =
      [c ++ " " ++ r ++ " interview salary reviews company type"] := rfl

/-- C4 witness at a concrete request. -/
theorem C4_witness :
    ("Acme" : String) ≠ "" ∧ ("Engineer" : String) ≠ "" ∧
    (search_company_info_traced "Acme" "Engineer" .failure).1 =
      ["Acme" ++ " " ++ "Engineer" ++ " interview salary reviews company type"] :=
  ⟨by decide, by decide,
   C4_single_search_call_query "Acme" "Engineer" (by decide) (by decide)
     .failure⟩

/-- C5: a missing (empty) company name or job role makes the handler warn
and abort before any network call: no search query is POSTed and no prompt
is sent. -/
theorem C5_validation_aborts_before_network (c r : String)
    (h : c = "" ∨ r = "") (sr : SearchResponse) (comp : Option String) :
    (handleSubmit c r sr comp).validationWarned = true ∧
    (handleSubmit c r sr comp).searchQueries = [] ∧
    (handleSubmit c r sr comp).generatePrompts = [] := by
  rcases h with h | h <;> subst h <;> simp [handleSubmit]

/-- C5 witness: empty company name. -/
theorem C5_witness :
    (("" : String) = "" ∨ ("Engineer" : String) = "") ∧
    ((handleSubmit "" "Engineer" .failure (some "guide")).validationWarned
        = true ∧
     (handleSubmit "" "Engineer" .failure (some "guide")).searchQueries = [] ∧
     (handleSubmit "" "Engineer" .failure (some "guide")).generatePrompts
        = []) :=
  ⟨Or.inl rfl,
   C5_validation_aborts_before_network "" "Engineer" (Or.inl rfl) .failure
     (some "guide")⟩

/-- C6: whenever the digest is nonempty, the generator is invoked exactly
once, and the prompt sent to the completion provider contains the literal
company name, the literal job role, and the digest text verbatim as
substrings. -/
theorem C6_generation_invoked_once_prompt_contains
    (c r : String) (sr : SearchResponse) (comp : Option String)
    (hc : c ≠ "") (hr : r ≠ "")
    (hd : search_company_info c r sr ≠ "") :
    (handleSubmit c r sr comp).generatePrompts =
      [prompt c r (search_company_info c r sr)] ∧
    ContainsStr (prompt c r (search_company_info c r sr)) c ∧
    ContainsStr (prompt c r (search_company_info c r sr)) r ∧
    ContainsStr (prompt c r (search_company_info c r sr))
      (search_company_info c r sr) := by
  refine ⟨?_, prompt_contains_company c r _, prompt_contains_role c r _,
    prompt_contains_facts c r _⟩
  unfold handleSubmit
  simp only [search_company_info_traced, generate_interview_guide_traced]
  rw [if_neg (by simp [hc, hr]), if_neg (by simp [hd])]
  split <;> rfl

/-- C6 witness at a concrete one-hit response. -/
theorem C6_witness :
    ("Acme" : String) ≠ "" ∧ ("Engineer" : String) ≠ "" ∧
    search_company_info "Acme" "Engineer"
      (.success (some [⟨some "T", some "L", some "S"⟩])) ≠ "" ∧
    ((handleSubmit "Acme" "Engineer"
        (.success (some [⟨some "T", some "L", some "S"⟩]))
        (some "guide")).generatePrompts =
      [prompt "Acme" "Engineer"
        (search_company_info "Acme" "Engineer"
          (.success (some [⟨some "T", some "L", some "S"⟩])))] ∧
     ContainsStr
       (prompt "Acme" "Engineer"
         (search_company_info "Acme" "Engineer"
           (.success (some [⟨some "T", some "L", some "S"⟩])))) "Acme" ∧
     ContainsStr
       (prompt "Acme" "Engineer"
         (search_company_info "Acme" "Engineer"
           (.success (some [⟨some "T", some "L", some "S"⟩])))) "Engineer" ∧
     ContainsStr
       (prompt "Acme" "Engineer"
         (search_company_info "Acme" "Engineer"
           (.success (some [⟨some "T", some "L", some "S"⟩]))))
       (search_company_info "Acme" "Engineer"
         (.success (some [⟨some "T", some "L", some "S"⟩])))) :=
  ⟨by decide, by decide, by decide,
   C6_generation_invoked_once_prompt_contains "Acme" "Engineer"
     (.success (some [⟨some "T", some "L", some "S"⟩])) (some "guide")
     (by decide) (by decide) (by decide)⟩

/-- C7: a failed completion call yields the empty guide; and whenever the
guide is the empty string — including a successful completion whose content
strips to nothing — no success banner, no guide, and no download artifact are
rendered for the request. -/
theorem C7_empty_guide_renders_nothing (c r : String) (sr : SearchResponse)
    (comp : Option String)
    (h : generate_interview_guide c r (search_company_info c r sr) comp = "") :
    (∀ cn jr f : String, generate_interview_guide cn jr f none = "") ∧
    (handleSubmit c r sr comp).successShown = false ∧
    (handleSubmit c r sr comp).guideShown = none ∧
    (handleSubmit c r sr comp).download = none := by
  refine ⟨fun _ _ _ => rfl, ?_⟩
  unfold handleSubmit
  simp only [search_company_info_traced, generate_interview_guide_traced]
  split
  · exact ⟨rfl, rfl, rfl⟩
  · split
    · exact ⟨rfl, rfl, rfl⟩
    · split
      · exact ⟨rfl, rfl, rfl⟩
      · rename_i hguide
        rw [h] at hguide
        simp at hguide

/-- C7 witness: the search succeeds but the completion's content strips to
the empty string, so nothing is rendered. -/
theorem C7_witness :
    generate_interview_guide "Acme" "Engineer"
      (search_company_info "Acme" "Engineer"
        (.success (some [⟨some "T", some "L", some "S"⟩])))
      (some "  \n ") = "" ∧
    ((∀ cn jr f : String, generate_interview_guide cn jr f none = "") ∧
     (handleSubmit "Acme" "Engineer"
        (.success (some [⟨some "T", some "L", some "S"⟩]))
        (some "  \n ")).successShown = false ∧
     (handleSubmit "Acme" "Engineer"
        (.success (some [⟨some "T", some "L", some "S"⟩]))
        (some "  \n ")).guideShown = none ∧
     (handleSubmit "Acme" "Engineer"
        (.success (some [⟨some "T", some "L", some "S"⟩]))
        (some "  \n ")).download = none) :=
  ⟨by decide,
   C7_empty_guide_renders_nothing "Acme" "Engineer"
     (.success (some [⟨some "T", some "L", some "S"⟩])) (some "  \n ")
     (by decide)⟩

/-- C8: a request that produces a nonempty guide renders it and offers a
download artifact whose file name is the raw inputs joined as
`{company}_{role}_Interview_Guide.txt` and whose content is exactly the
guide text returned by the generator. -/
theorem C8_download_artifact (c r : String) (sr : SearchResponse)
    (comp : Option String) (hc : c ≠ "") (hr : r ≠ "")
    (hd : search_company_info c r sr ≠ "")
    (hg : generate_interview_guide c r (search_company_info c r sr) comp
      ≠ "") :
    (handleSubmit c r sr comp).download =
      some (c ++ "_" ++ r ++ "_Interview_Guide.txt",
            generate_interview_guide c r (search_company_info c r sr) comp) ∧
    (handleSubmit c r sr comp).guideShown =
      some (generate_interview_guide c r (search_company_info c r sr) comp)
    := by
  unfold handleSubmit
  simp only [search_company_info_traced, generate_interview_guide_traced]
  rw [if_neg (by simp [hc, hr]), if_neg (by simp [hd]),
    if_neg (by simp [hg])]
  exact ⟨rfl, rfl⟩

/-- C8 witness: the end-to-end scenario with a nonempty guide. -/
theorem C8_witness :
    ("Acme" : String) ≠ "" ∧ ("Engineer" : String) ≠ "" ∧
    search_company_info "Acme" "Engineer"
      (.success (some [⟨some "T", some "L", some "S"⟩])) ≠ "" ∧
    generate_interview_guide "Acme" "Engineer"
      (search_company_info "Acme" "Engineer"
        (.success (some [⟨some "T", some "L", some "S"⟩])))
      (some "## Guide text") ≠ "" ∧
    ((handleSubmit "Acme" "Engineer"
        (.success (some [⟨some "T", some "L", some "S"⟩]))
        (some "## Guide text")).download =
      some ("Acme" ++ "_" ++ "Engineer" ++ "_Interview_Guide.txt",
            generate_interview_guide "Acme" "Engineer"
              (search_company_info "Acme" "Engineer"
                (.success (some [⟨some "T", some "L", some "S"⟩])))
              (some "## Guide text")) ∧
     (handleSubmit "Acme" "Engineer"
        (.success (some [⟨some "T", some "L", some "S"⟩]))
        (some "## Guide text")).guideShown =
      some (generate_interview_guide "Acme" "Engineer"
              (search_company_info "Acme" "Engineer"
                (.success (some [⟨some "T", some "L", some "S"⟩])))
              (some "## Guide text"))) :=
  ⟨by decide, by decide, by decide, by decide,
   C8_download_artifact "Acme" "Engineer"
     (.success (some [⟨some "T", some "L", some "S"⟩])) (some "## Guide text")
     (by decide) (by decide) (by decide) (by decide)⟩

/-- C9: the startup credential gate halts exactly when the search-provider
key or the completion-provider key is absent from the environment or is the
empty string; with both present and nonempty, startup proceeds. -/
theorem C9_credential_gate (g s : Option String) :
    credentialGatePasses g s = false ↔
      (g = none ∨ g = some "" ∨ s = none ∨ s = some "") := by
  rcases g with _ | gv <;> rcases s with _ | sv <;>
    simp [credentialGatePasses, pyNotStr] <;> tauto

/-- C10: inputs consisting only of whitespace (nonempty, blank after
trimming) pass validation, and the search query interpolates the untrimmed
strings verbatim; validation warns exactly on strings that are exactly
empty. -/
theorem C10_whitespace_only_passes_validation (c r : String)
    (hc : c ≠ "") (hr : r ≠ "")
    (hcw : ∀ ch ∈ c.data, pyIsSpace ch = true)
    (hrw : ∀ ch ∈ r.data, pyIsSpace ch = true)
    (sr : SearchResponse) (comp : Option String) :
    (handleSubmit c r sr comp).validationWarned = false ∧
    (handleSubmit c r sr comp).searchQueries =
      [c ++ " " ++ r ++ " interview salary reviews company type"] ∧
    (∀ c2 r2 : String,
      (handleSubmit c2 r2 sr comp).validationWarned = true ↔
        (c2 = "" ∨ r2 = "")) := by
  refine ⟨?_, ?_, ?_⟩
  · unfold handleSubmit
    simp only [search_company_info_traced, generate_interview_guide_traced]
    rw [if_neg (by simp [hc, hr])]
    split
    · rfl
    · split <;> rfl
  · unfold handleSubmit
    simp only [search_company_info_traced, generate_interview_guide_traced]
    rw [if_neg (by simp [hc, hr])]
    split
    · rfl
    · split <;> rfl
  · intro c2 r2
    by_cases h2 : c2 = "" ∨ r2 = ""
    · constructor
      · intro _
        exact h2
      · intro _
        unfold handleSubmit
        rw [if_pos (by rcases h2 with h2 | h2 <;> simp [h2])]
    · push_neg at h2
      constructor
      · intro hw
        exfalso
        revert hw
        unfold handleSubmit
        simp only [search_company_info_traced, generate_interview_guide_traced]
        rw [if_neg (by simp [h2.1, h2.2])]
        split
        · simp
        · split <;> simp
      · intro hcontra
        exact absurd hcontra (by simp [h2.1, h2.2])

/-- C10 witness: whitespace-only company name and job role. -/
theorem C10_witness :
    (" " : String) ≠ "" ∧ ("\t" : String) ≠ "" ∧
    (∀ ch ∈ (" " : String).data, pyIsSpace ch = true) ∧
    (∀ ch ∈ ("\t" : String).data, pyIsSpace ch = true) ∧
    ((handleSubmit " " "\t" .failure (some "guide")).validationWarned
        = false ∧
     (handleSubmit " " "\t" .failure (some "guide")).searchQueries =
       [" " ++ " " ++ "\t" ++ " interview salary reviews company type"] ∧
     (∀ c2 r2 : String,
       (handleSubmit c2 r2 .failure (some "guide")).validationWarned = true ↔
         (c2 = "" ∨ r2 = ""))) :=
  ⟨by decide, by decide, by decide, by decide,
   C10_whitespace_only_passes_validation " " "\t" (by decide) (by decide)
     (by decide) (by decide) .failure (some "guide")⟩

end InterviewPrep
